import Mathlib

/-!
Verification of the UNESCO-Sites-API heritage-sites service.

Shallow embedding of `src/addons/unesco/routing/heritage_sites_service.py`
(FastAPI handlers over one SQLite table `sites_xlsx_export`) and of the upload
handlers in `src/addons/unesco_world_heritage_sites/routing/heritage_sites_service.py`.

Modelling conventions:
* a table row is a `Row` with one `Option`-valued field per column (SQL NULL = `none`);
  numeric REAL columns (`longitude`, `latitude`, `date_end`, `area_hectares`) are
  modelled as integers, since no verified property depends on fractional values;
* SQLite `LIKE` is modelled by `sqlLike` (ASCII case folding, `%`/`_` wildcards,
  NULL operand never matches), `=` by equality on the `Option` value, and the
  `WHERE` conjunction of the dynamically built query by `rowMatches`;
* `LIMIT :limit OFFSET :skip` is modelled by `sqlPage` with SQLite's semantics
  for out-of-range values (negative OFFSET skips nothing, negative LIMIT means
  no limit);
* the SQL text assembled from `query_parts` is modelled verbatim by
  `filterQueryParts` / `geoQueryParts` (client strings are bound as parameters,
  so they appear in the parameter set, never in the text);
* Python string truthiness (`if country:`) is `strTruthy`, integer truthiness
  (`if year_from:`) is `intTruthy`; `str.split(',')`, `str.strip()`, `str.lower()`
  and `str.isdigit()` are modelled on character lists (`splitCommaL`, `stripL`,
  `asciiLower`, `isDigitsL`), restricted to ASCII case folding and decimal digits.
-/

set_option maxRecDepth 8192

namespace Unesco

/-! ### Characters and strings -/

/-- ASCII lower-casing on code points: `A`..`Z` (65..90) map to `a`..`z`. -/
def lowerNat (n : Nat) : Nat := if 65 ≤ n ∧ n ≤ 90 then n + 32 else n

/-- ASCII lower-casing of a character (SQLite `LIKE` and Python `.lower()` on ASCII). -/
def asciiLower (c : Char) : Char :=
  if 65 ≤ c.toNat ∧ c.toNat ≤ 90 then Char.ofNat (c.toNat + 32) else c

/-- Case-insensitive character comparison, via code points. -/
def charEqCI (a b : Char) : Bool := lowerNat a.toNat == lowerNat b.toNat

/-- One step of SQLite `LIKE` matching: `%` matches any sequence, `_` any single
character, anything else matches case-insensitively.  The `fuel` argument bounds
the recursion depth; `pattern.length + text.length + 1` always suffices because
every recursive call shrinks the pattern or the text. -/
def likeAux : Nat → List Char → List Char → Bool
  | 0, _, _ => false
  | _ + 1, [], s => s.isEmpty
  | fuel + 1, p :: pr, s =>
    if p == '%' then
      likeAux fuel pr s ||
        (match s with
         | [] => false
         | _ :: cs => likeAux fuel (p :: pr) cs)
    else if p == '_' then
      match s with
      | [] => false
      | _ :: cs => likeAux fuel pr cs
    else
      match s with
      | [] => false
      | c :: cs => charEqCI p c && likeAux fuel pr cs

/-- SQLite `text LIKE pattern` (default `PRAGMA case_sensitive_like = OFF`). -/
def sqlLike (pattern text : String) : Bool :=
  likeAux (pattern.data.length + text.data.length + 1) pattern.data text.data

/-- The bound pattern `f"%{x}%"` used for every substring filter. -/
def likePat (x : String) : String := "%" ++ x ++ "%"

/-- `column LIKE pattern` where the column may be NULL: NULL never matches. -/
def optLike (field : Option String) (pattern : String) : Bool :=
  match field with
  | none => false
  | some s => sqlLike pattern s

/-- Python truthiness of an optional string parameter (`if country:`). -/
def strTruthy : Option String → Bool
  | none => false
  | some s => !s.data.isEmpty

/-- Python truthiness of an optional int parameter (`if year_from:`). -/
def intTruthy : Option Int → Bool
  | none => false
  | some n => n != 0

/-- Python `str.split(',')` on character lists. -/
def splitCommaL : List Char → List Char → List (List Char)
  | [], acc => [acc.reverse]
  | c :: rest, acc =>
    if c == ',' then acc.reverse :: splitCommaL rest [] else splitCommaL rest (c :: acc)

/-- ASCII whitespace recognised by `str.strip()`. -/
def isSpaceChar (c : Char) : Bool :=
  c == ' ' || c == '\t' || c == '\n' || c == '\r' || c == '\x0b' || c == '\x0c'

/-- Python `str.strip()` on character lists. -/
def stripL (l : List Char) : List Char :=
  ((l.dropWhile isSpaceChar).reverse.dropWhile isSpaceChar).reverse

/-- Python `str.isdigit()` restricted to decimal digits: nonempty and all `0`..`9`. -/
def isDigitsL (l : List Char) : Bool :=
  !l.isEmpty && l.all (fun c => 48 ≤ c.toNat && c.toNat ≤ 57)

/-- Python `int()` on a decimal digit string. -/
def digitsToNatL (l : List Char) : Nat :=
  l.foldl (fun a c => a * 10 + (c.toNat - 48)) 0

/-! ### The table row (`sites_xlsx_export` columns, all nullable) -/

structure Row where
  unique_number : Option Int := none
  id_no : Option Int := none
  rev_bis : Option String := none
  name_en : Option String := none
  name_fr : Option String := none
  short_description_en : Option String := none
  short_description_fr : Option String := none
  justification_en : Option String := none
  justification_fr : Option String := none
  longitude : Option Int := none
  latitude : Option Int := none
  category : Option String := none
  category_short : Option String := none
  states_name_en : Option String := none
  states_name_fr : Option String := none
  region_en : Option String := none
  region_fr : Option String := none
  iso_code : Option String := none
  udnp_code : Option String := none
  date_inscribed : Option Int := none
  secondary_dates : Option String := none
  date_end : Option Int := none
  danger : Option Int := none
  danger_list : Option String := none
  area_hectares : Option Int := none
  c1 : Option Int := none
  c2 : Option Int := none
  c3 : Option Int := none
  c4 : Option Int := none
  c5 : Option Int := none
  c6 : Option Int := none
  n7 : Option Int := none
  n8 : Option Int := none
  n9 : Option Int := none
  n10 : Option Int := none
  criteria_txt : Option String := none
  transboundary : Option Int := none
deriving DecidableEq, Repr

/-- Criterion flag column by index: 1..6 are `c1`..`c6`, 7..10 are `n7`..`n10`. -/
def flagCol (k : Nat) (r : Row) : Option Int :=
  match k with
  | 1 => r.c1
  | 2 => r.c2
  | 3 => r.c3
  | 4 => r.c4
  | 5 => r.c5
  | 6 => r.c6
  | 7 => r.n7
  | 8 => r.n8
  | 9 => r.n9
  | 10 => r.n10
  | _ => none

/-! ### Criteria token parsing (`filter_sites`, lines 207-218) -/

/-- One token of the `criteria` parameter, already stripped and lower-cased:
`c` followed by digits with value 1..6, or `n` followed by digits with value
7..10, yields the flag-column index; anything else is ignored (`none`). -/
def tokenColL : List Char → Option Nat
  | [] => none
  | c :: rest =>
    if c == 'c' then
      if isDigitsL rest then
        if 1 ≤ digitsToNatL rest ∧ digitsToNatL rest ≤ 6 then some (digitsToNatL rest)
        else none
      else none
    else if c == 'n' then
      if isDigitsL rest then
        if 7 ≤ digitsToNatL rest ∧ digitsToNatL rest ≤ 10 then some (digitsToNatL rest)
        else none
      else none
    else none

/-- `criteria.split(',')` with each token stripped and lower-cased. -/
def criteriaTokensL (s : String) : List (List Char) :=
  (splitCommaL s.data []).map (fun t => (stripL t).map asciiLower)

/-- The flag-column indices contributed by a `criteria` string. -/
def critCols (s : String) : List Nat :=
  (criteriaTokensL s).filterMap tokenColL

/-- The flag-column indices of the `criteria` parameter, honouring Python
truthiness (`if criteria:`): absent or empty contributes nothing. -/
def critColsOpt : Option String → List Nat
  | none => []
  | some s => if s.data.isEmpty then [] else critCols s

/-! ### The `/sites/filter` parameters and WHERE clause -/

structure FilterParams where
  country : Option String := none
  region : Option String := none
  category : Option String := none
  danger : Option Bool := none
  year_from : Option Int := none
  year_to : Option Int := none
  search : Option String := none
  criteria : Option String := none
  transboundary : Option Bool := none
  page : Int := 1
  per_page : Int := 100
deriving DecidableEq, Repr

/-- A conditionally added clause: when the parameter is absent (`b = false`)
no constraint applies; otherwise the clause itself. -/
def guardB (b x : Bool) : Bool := !b || x

/-- Python `1 if flag else 0`. -/
def boolToInt (b : Bool) : Int := if b then 1 else 0

/-- `date_inscribed >= :year_from` (NULL never matches). -/
def geOpt : Option Int → Int → Bool
  | none, _ => false
  | some y, v => v ≤ y

/-- `date_inscribed <= :year_to` (NULL never matches). -/
def leOpt : Option Int → Int → Bool
  | none, _ => false
  | some y, v => y ≤ v

/-- The OR-combined `search` clause over name and description columns. -/
def searchClause (r : Row) (pat : String) : Bool :=
  optLike r.name_en pat || optLike r.name_fr pat ||
    optLike r.short_description_en pat || optLike r.short_description_fr pat

/-- Evaluation of the WHERE conjunction built by `filter_sites` on one row:
each clause is present exactly when the source appends it to `query_parts`,
and the clauses are AND-ed (`WHERE 1=1 AND ...`). -/
def rowMatches (p : FilterParams) (r : Row) : Bool :=
  guardB (strTruthy p.country) (optLike r.states_name_en (likePat (p.country.getD ""))) &&
  guardB (strTruthy p.region) (optLike r.region_en (likePat (p.region.getD ""))) &&
  guardB (strTruthy p.category) (optLike r.category_short (likePat (p.category.getD ""))) &&
  guardB p.danger.isSome (r.danger == some (boolToInt (p.danger.getD false))) &&
  guardB p.transboundary.isSome (r.transboundary == some (boolToInt (p.transboundary.getD false))) &&
  guardB (intTruthy p.year_from) (geOpt r.date_inscribed (p.year_from.getD 0)) &&
  guardB (intTruthy p.year_to) (leOpt r.date_inscribed (p.year_to.getD 0)) &&
  guardB (strTruthy p.search) (searchClause r (likePat (p.search.getD ""))) &&
  (critColsOpt p.criteria).all (fun k => flagCol k r == some 1)

/-- `skip = (page - 1) * per_page` — computed with no validation. -/
def skipOf (page per_page : Int) : Int := (page - 1) * per_page

/-- SQLite `LIMIT lim OFFSET off`: a negative OFFSET skips nothing and a
negative LIMIT means no limit. -/
def sqlPage (lim off : Int) (rows : List Row) : List Row :=
  let dropped := rows.drop off.toNat
  if lim < 0 then dropped else dropped.take lim.toNat

/-- `GET /sites/all`: the unfiltered listing with pagination. -/
def get_all_sites (page per_page : Int) (table : List Row) : List Row :=
  sqlPage per_page (skipOf page per_page) table

/-- `GET /sites/filter`: the dynamically built filter query with pagination. -/
def filter_sites (p : FilterParams) (table : List Row) : List Row :=
  sqlPage p.per_page (skipOf p.page p.per_page) (table.filter (rowMatches p))

/-! ### The SQL text assembled by `filter_sites` (`query_parts`, lines 162-229)

Client-supplied strings are bound through the `params` dictionary; the only
text the `criteria` parameter contributes is the validated column fragment
`f"AND c{col_num} = 1"` / `f"AND n{col_num} = 1"`. -/

/-- The fixed SELECT head of `filter_sites` (whitespace condensed). -/
def filterSelectSQL : String :=
  "SELECT unique_number, id_no, rev_bis, name_en, name_fr, short_description_en, short_description_fr, longitude, latitude, category, category_short, states_name_en, region_en, date_inscribed FROM sites_xlsx_export WHERE 1=1"

/-- The text fragment emitted for one validated criteria column index. -/
def critFragment (k : Nat) : String :=
  (if k ≤ 6 then "AND c" else "AND n") ++ toString k ++ " = 1"

/-- The list of SQL fragments `filter_sites` joins into the executed query. -/
def filterQueryParts (p : FilterParams) : List String :=
  [filterSelectSQL] ++
  (if strTruthy p.country then ["AND states_name_en LIKE :country"] else []) ++
  (if strTruthy p.region then ["AND region_en LIKE :region"] else []) ++
  (if strTruthy p.category then ["AND category_short LIKE :category"] else []) ++
  (if p.danger.isSome then ["AND danger = :danger"] else []) ++
  (if p.transboundary.isSome then ["AND transboundary = :transboundary"] else []) ++
  (if intTruthy p.year_from then ["AND date_inscribed >= :year_from"] else []) ++
  (if intTruthy p.year_to then ["AND date_inscribed <= :year_to"] else []) ++
  (if strTruthy p.search then
    ["AND (name_en LIKE :search OR name_fr LIKE :search OR short_description_en LIKE :search OR short_description_fr LIKE :search)"]
   else []) ++
  (critColsOpt p.criteria).map critFragment ++
  ["LIMIT :limit OFFSET :skip"]

/-! ### `GET /sites/detail/{site_id}` (lines 235-254) -/

/-- The outcome of the detail lookup: the full row, or an `HTTPException`
propagated to the framework with its status code and detail message. -/
inductive DetailResult where
  | found (r : Row)
  | httpError (status : Nat) (detail : String)
deriving DecidableEq, Repr

/-- Detail lookup: first row with `id_no = :site_id` (the `fetchone`), else
`HTTPException(404, f"Site with ID {site_id} not found")` is raised. -/
def get_site_detail (site_id : Int) (table : List Row) : DetailResult :=
  match table.find? (fun r => r.id_no == some site_id) with
  | some r => DetailResult.found r
  | none => DetailResult.httpError 404 ("Site with ID " ++ toString site_id ++ " not found")

/-! ### `GET /sites/geo` (lines 443-530) -/

structure GeoParams where
  country : Option String := none
  region : Option String := none
  category : Option String := none
  criteria : Option String := none
  danger : Option Bool := none
  transboundary : Option Bool := none
deriving DecidableEq, Repr

/-- The single-token criteria validation of `get_geojson_data`: first character
(lower-cased) dispatches on `c`/`n`, the remaining characters must be digits in
range.  Returns the digit string as written, because the source interpolates
`criteria_num` (not the parsed int) into the column fragment — so a token such
as `c01` passes validation but names a column `c01` absent from the schema. -/
def geoCritNum (s : String) : Option (Bool × List Char) :=
  match s.data with
  | [] => none
  | c0 :: rest =>
    let t := asciiLower c0
    if t == 'c' then
      if isDigitsL rest ∧ 1 ≤ digitsToNatL rest ∧ digitsToNatL rest ≤ 6 then
        some (true, rest)
      else none
    else if t == 'n' then
      if isDigitsL rest ∧ 7 ≤ digitsToNatL rest ∧ digitsToNatL rest ≤ 10 then
        some (false, rest)
      else none
    else none

/-- The text fragment the geo endpoint appends for its `criteria` parameter
(`f"AND c{criteria_num} = 1"` with the digit string as supplied). -/
def geoCritTextClause (criteria : Option String) : List String :=
  if strTruthy criteria then
    match geoCritNum (criteria.getD "") with
    | some (isC, ds) =>
      [(if isC then "AND c" else "AND n") ++ String.mk ds ++ " = 1"]
    | none => []
  else []

/-- The fixed SELECT head of `get_geojson_data` (whitespace condensed). -/
def geoSelectSQL : String :=
  "SELECT id_no, name_en, longitude, latitude, category_short, states_name_en, region_en, danger, transboundary, c1, c2, c3, c4, c5, c6, n7, n8, n9, n10 FROM sites_xlsx_export WHERE longitude IS NOT NULL AND latitude IS NOT NULL"

/-- The list of SQL fragments `get_geojson_data` joins into the executed query. -/
def geoQueryParts (g : GeoParams) : List String :=
  [geoSelectSQL] ++
  (if strTruthy g.country then ["AND states_name_en = :country"] else []) ++
  (if strTruthy g.region then ["AND region_en = :region"] else []) ++
  (if strTruthy g.category then ["AND category_short = :category"] else []) ++
  (if g.danger.isSome then ["AND danger = :danger"] else []) ++
  (if g.transboundary.isSome then ["AND transboundary = :transboundary"] else []) ++
  geoCritTextClause g.criteria

/-- The semantic criteria clause of the geo query, as the flag-column index.
Only canonical digit strings are exercised by the theorems below; a token with
leading zeros would make the executed query fail on an unknown column. -/
def geoCritColIdx (criteria : Option String) : Option Nat :=
  if strTruthy criteria then
    match geoCritNum (criteria.getD "") with
    | some (_, ds) => some (digitsToNatL ds)
    | none => none
  else none

/-- Evaluation of the geo WHERE conjunction on one row: the fixed coordinate
non-NULL clause plus the conditionally added exact-match clauses. -/
def geoMatches (g : GeoParams) (r : Row) : Bool :=
  (r.longitude.isSome && r.latitude.isSome) &&
  guardB (strTruthy g.country) (r.states_name_en == some (g.country.getD "")) &&
  guardB (strTruthy g.region) (r.region_en == some (g.region.getD "")) &&
  guardB (strTruthy g.category) (r.category_short == some (g.category.getD "")) &&
  guardB g.danger.isSome (r.danger == some (boolToInt (g.danger.getD false))) &&
  guardB g.transboundary.isSome (r.transboundary == some (boolToInt (g.transboundary.getD false))) &&
  (match geoCritColIdx g.criteria with
   | none => true
   | some k => flagCol k r == some 1)

/-- The rows selected by the geo query. -/
def geoFilteredRows (g : GeoParams) (table : List Row) : List Row :=
  table.filter (geoMatches g)

/-- Python `bool()` of a nullable integer column: `bool(None) = False`,
`bool(n) = (n != 0)`. -/
def pyBool : Option Int → Bool
  | none => false
  | some n => n != 0

/-- One GeoJSON feature as built in the loop body of `get_geojson_data`. -/
structure Feature where
  longitude : Option Int
  latitude : Option Int
  id : Option Int
  name : Option String
  category : Option String
  country : Option String
  region : Option String
  danger : Bool
  transboundary : Bool
  c1 : Bool
  c2 : Bool
  c3 : Bool
  c4 : Bool
  c5 : Bool
  c6 : Bool
  n7 : Bool
  n8 : Bool
  n9 : Bool
  n10 : Bool
deriving DecidableEq, Repr

/-- The feature dictionary built (and then discarded) for one row. -/
def mkFeature (r : Row) : Feature :=
  { longitude := r.longitude
    latitude := r.latitude
    id := r.id_no
    name := r.name_en
    category := r.category_short
    country := r.states_name_en
    region := r.region_en
    danger := pyBool r.danger
    transboundary := pyBool r.transboundary
    c1 := pyBool r.c1
    c2 := pyBool r.c2
    c3 := pyBool r.c3
    c4 := pyBool r.c4
    c5 := pyBool r.c5
    c6 := pyBool r.c6
    n7 := pyBool r.n7
    n8 := pyBool r.n8
    n9 := pyBool r.n9
    n10 := pyBool r.n10 }

/-- `GET /sites/geo` as written: the loop body rebinds `feature` on every row
but never appends it to `features`, so the handler returns the initial empty
list no matter how many rows the query selects. -/
def get_geojson_data (g : GeoParams) (table : List Row) : List Feature :=
  (geoFilteredRows g table).foldl (fun features r => (fun _ => features) (mkFeature r)) []

/-! ### `GET /sites/stats` (lines 349-412) -/

/-- `SELECT COUNT(*) FROM sites_xlsx_export`. -/
def total_sites (table : List Row) : Nat := table.length

/-- The category values that survive `WHERE category_short IS NOT NULL` and the
falsy-key filter of the dict comprehension (`if row[0]` also drops `""`). -/
def catVals (table : List Row) : List String :=
  (table.filterMap (fun r => r.category_short)).filter (fun s => !s.data.isEmpty)

/-- `sites_by_category`: count per distinct non-null, non-empty category. -/
def sites_by_category (table : List Row) : List (String × Nat) :=
  (catVals table).dedup.map (fun k => (k, (catVals table).count k))

/-- The sum of the `sites_by_category` counts. -/
def sumCategoryCounts (table : List Row) : Nat :=
  ((sites_by_category table).map (fun kv => kv.2)).sum

/-- `SELECT COUNT(*) FROM sites_xlsx_export WHERE danger = 1`. -/
def sites_in_danger (table : List Row) : Nat :=
  (table.filter (fun r => r.danger == some 1)).length

/-- `((date_inscribed/10)*10)`: SQLite integer division truncates toward zero. -/
def decadeOfYear (y : Int) : Int := Int.tdiv y 10 * 10

/-- The decade of every row that passes `WHERE date_inscribed IS NOT NULL`. -/
def decadesList (table : List Row) : List Int :=
  (table.filterMap (fun r => r.date_inscribed)).map decadeOfYear

/-- The distinct decades in ascending order (`GROUP BY decade ORDER BY decade`). -/
def decadeKeys (table : List Row) : List Int :=
  List.insertionSort (fun a b => a ≤ b) (decadesList table).dedup

/-- `sites_by_decade`: key `f"{decade}s"` mapped to the group count, in the
query's ascending decade order. -/
def sites_by_decade (table : List Row) : List (String × Nat) :=
  (decadeKeys table).map (fun d => (toString d ++ "s", (decadesList table).count d))

/-! ### The upload handlers
(`src/addons/unesco_world_heritage_sites/routing/heritage_sites_service.py`) -/

/-- An exception raised inside the `try` block of an upload handler. -/
inductive Exc where
  /-- `HTTPException(status_code, detail)` raised by the extension check. -/
  | httpException (status : Nat) (detail : String)
  /-- Any exception escaping `pd.read_excel` / column processing. -/
  | parseError (msg : String)
deriving DecidableEq, Repr

/-- What an upload handler hands back to the framework. -/
inductive UploadResponse where
  /-- A normal dictionary return: serialized with HTTP status 200. -/
  | success (payload : List String)
  /-- The `except Exception` arm: `{"error": str(e)}`, also HTTP status 200. -/
  | errorBody (e : Exc)
  /-- An exception escaping the handler, surfaced with its HTTP status.
  Unreachable here: the `except Exception` arm catches everything. -/
  | abort (status : Nat) (detail : String)
deriving DecidableEq, Repr

/-- The HTTP status code of each outcome. -/
def responseStatus : UploadResponse → Nat
  | .success _ => 200
  | .errorBody _ => 200
  | .abort s _ => s

/-- `s.endswith(suffix)` on character lists. -/
def listEndsWith (s suffix : List Char) : Bool :=
  s.reverse.take suffix.length == suffix.reverse

/-- `filename.endswith(('.xls', '.xlsx'))`. -/
def hasExcelExt (filename : String) : Bool :=
  listEndsWith filename.data ".xls".data || listEndsWith filename.data ".xlsx".data

/-- The `try` block shared by the upload handlers: raise `HTTPException(400)`
on a bad extension, otherwise parse the spreadsheet (whose outcome is the
`parse` argument) and return the derived payload. -/
def uploadTryBody (filename : String) (parse : Except String (List String)) :
    Except Exc (List String) :=
  if !hasExcelExt filename then
    Except.error (Exc.httpException 400 "Invalid file type. Please upload an Excel file.")
  else
    match parse with
    | Except.error m => Except.error (Exc.parseError m)
    | Except.ok payload => Except.ok payload

/-- `POST /sites/upload-xls/`: the whole body sits inside
`try: ... except Exception as e: return {"error": str(e)}`, so every raised
exception — the `HTTPException(400)` included — is converted into a normal
200-status error body. -/
def upload_xls (filename : String) (parse : Except String (List String)) : UploadResponse :=
  match uploadTryBody filename parse with
  | Except.ok payload => UploadResponse.success payload
  | Except.error e => UploadResponse.errorBody e

/-- `POST /sites/countries/`: identical guard and exception handling; the
payload is the distinct country list of the parsed sheet. -/
def get_countries (filename : String) (parse : Except String (List String)) : UploadResponse :=
  match uploadTryBody filename parse with
  | Except.ok payload => UploadResponse.success payload
  | Except.error e => UploadResponse.errorBody e

/-! ### General helper lemmas -/

theorem charToNat_inj {a b : Char} (h : a.toNat = b.toNat) : a = b := by
  have h2 := congrArg Char.ofNat h
  simpa [Char.ofNat_toNat] using h2

theorem mem_of_mem_sqlPage {lim off : Int} {rows : List Row} {r : Row}
    (h : r ∈ sqlPage lim off rows) : r ∈ rows := by
  unfold sqlPage at h
  split at h
  · exact List.mem_of_mem_drop h
  · exact List.mem_of_mem_drop (List.mem_of_mem_take h)

theorem mem_filter_sites {p : FilterParams} {table : List Row} {r : Row}
    (h : r ∈ filter_sites p table) : r ∈ table ∧ rowMatches p r = true := by
  unfold filter_sites at h
  exact List.mem_filter.mp (mem_of_mem_sqlPage h)

theorem guardB_elim {b x : Bool} (h : guardB b x = true) (hb : b = true) : x = true := by
  subst hb
  simpa [guardB] using h

theorem strTruthy_of_ne {c : String} (h : c ≠ "") : strTruthy (some c) = true := by
  have hd : c.data ≠ [] := by
    intro hd
    apply h
    cases c
    simp_all
  simp [strTruthy, List.isEmpty_iff, hd]

/-! ### Claim C10 — falsy parameter values behave as omitted parameters -/

/-- Claim C10: in `/sites/filter`, supplying `year_from=0` or `year_to=0`, or the
empty string for `country`, `region`, `category`, `search`, or `criteria`, behaves
identically to omitting that parameter — the Python truthiness test (`if country:`)
adds no clause for any of these, so the result set is unchanged. -/
theorem c10_falsy_equals_absent (p : FilterParams) (table : List Row) :
    filter_sites { p with country := some "" } table =
      filter_sites { p with country := none } table ∧
    filter_sites { p with region := some "" } table =
      filter_sites { p with region := none } table ∧
    filter_sites { p with category := some "" } table =
      filter_sites { p with category := none } table ∧
    filter_sites { p with search := some "" } table =
      filter_sites { p with search := none } table ∧
    filter_sites { p with criteria := some "" } table =
      filter_sites { p with criteria := none } table ∧
    filter_sites { p with year_from := some 0 } table =
      filter_sites { p with year_from := none } table ∧
    filter_sites { p with year_to := some 0 } table =
      filter_sites { p with year_to := none } table :=
  ⟨rfl, rfl, rfl, rfl, rfl, rfl, rfl⟩

/-! ### Claim C4 — pagination offset -/

/-- Claim C4, counterexample: the endpoints perform no validation of `page` and
`per_page`, so `page = 0, per_page = 100` makes `skip = (page-1)*per_page = -100`,
a negative offset handed to the data store (refuting "the computed pagination
offset passed to the data store is never negative"). -/
theorem c4_counterexample : skipOf 0 100 = -100 ∧ skipOf 0 100 < 0 := by decide

/-- Claim C4 as amended: the computed offset `(page-1)*per_page` is non-negative
whenever `page ≥ 1` and `per_page ≥ 0`; invalid values are neither rejected nor
normalized, and SQLite itself clamps a negative offset to zero rows skipped
(`sqlPage`), which is why `get_all_sites`/`filter_sites` still return rows from
the start of the listing. -/
theorem c4_offset_nonneg (page per_page : Int) (h1 : 1 ≤ page) (h2 : 0 ≤ per_page) :
    0 ≤ skipOf page per_page ∧
    (∀ table : List Row, get_all_sites page per_page table =
      sqlPage per_page (skipOf page per_page) table) ∧
    (∀ p : FilterParams, ∀ table : List Row, p.page = page → p.per_page = per_page →
      filter_sites p table =
        sqlPage per_page (skipOf page per_page) (table.filter (rowMatches p))) := by
  refine ⟨?_, fun table => rfl, ?_⟩
  · have hp : 0 ≤ page - 1 := by omega
    exact mul_nonneg hp h2
  · intro p table hpg hpp
    unfold filter_sites
    rw [hpg, hpp]

theorem c4_offset_nonneg_witness : 0 ≤ skipOf 3 50 :=
  (c4_offset_nonneg 3 50 (by decide) (by decide)).1

/-! ### Claim C5 — upload endpoints on a non-Excel filename -/

/-- Claim C5 names the intended behaviour: a filename not ending in `.xls`/`.xlsx`
should terminate with HTTP 400.  The code raises `HTTPException(400, ...)` inside
the `try` block, but its own `except Exception` arm catches that exception and
returns `{"error": str(e)}` as a normal response — an HTTP 200.  This theorem
evaluates both upload handlers at such a filename: the 400 is swallowed and the
observable status is 200, for every possible spreadsheet-parsing outcome. -/
theorem c5_upload_swallows_400 :
    (∀ parse : Except String (List String),
      upload_xls "sites.csv" parse =
        UploadResponse.errorBody
          (Exc.httpException 400 "Invalid file type. Please upload an Excel file.") ∧
      responseStatus (upload_xls "sites.csv" parse) = 200) ∧
    (∀ parse : Except String (List String),
      get_countries "sites.csv" parse =
        UploadResponse.errorBody
          (Exc.httpException 400 "Invalid file type. Please upload an Excel file.") ∧
      responseStatus (get_countries "sites.csv" parse) = 200) :=
  ⟨fun _ => ⟨rfl, rfl⟩, fun _ => ⟨rfl, rfl⟩⟩

/-! ### Claim C3 — the geo endpoint loses every feature -/

/-- A row with coordinates that passes every (absent) geo filter. -/
def geoSampleRow : Row :=
  { id_no := some 1
    name_en := some "Island of Goree"
    longitude := some (-17)
    latitude := some 14
    category_short := some "Cultural"
    states_name_en := some "Senegal"
    region_en := some "Africa"
    danger := some 0
    transboundary := some 0
    c6 := some 1 }

/-- Claim C3 evaluated on the code: the geo query does select exactly the rows
with non-null coordinates (a row lacking them is excluded), and the feature the
loop body builds for the sample row carries identifier, name, coordinates,
category, country, region, both flags and all ten criterion booleans — but the
handler returns the empty list, because the loop never appends `feature` to
`features`.  The claimed one-feature-per-record output is the intended contract;
the code drops every feature. -/
theorem c3_geo_loses_features :
    geoFilteredRows {} [geoSampleRow] = [geoSampleRow] ∧
    geoFilteredRows {} [({} : Row)] = [] ∧
    mkFeature geoSampleRow =
      { longitude := some (-17)
        latitude := some 14
        id := some 1
        name := some "Island of Goree"
        category := some "Cultural"
        country := some "Senegal"
        region := some "Africa"
        danger := false
        transboundary := false
        c1 := false
        c2 := false
        c3 := false
        c4 := false
        c5 := false
        c6 := true
        n7 := false
        n8 := false
        n9 := false
        n10 := false } ∧
    get_geojson_data {} [geoSampleRow] = [] := by
  refine ⟨by decide, by decide, by decide, by decide⟩

/-! ### Claim C7 — detail lookup -/

/-- Claim C7: `/sites/detail/{site_id}` either returns a full record whose
`id_no` equals the requested id and that belongs to the table, or terminates
with a 404 carrying the descriptive message; a record with a matching `id_no`
is found whenever one exists, and a row with a different (or NULL) `id_no` is
never returned. -/
theorem c7_detail_lookup (site_id : Int) (table : List Row) :
    (∀ r, get_site_detail site_id table = DetailResult.found r →
      r.id_no = some site_id ∧ r ∈ table) ∧
    ((∀ r ∈ table, r.id_no ≠ some site_id) →
      get_site_detail site_id table =
        DetailResult.httpError 404 ("Site with ID " ++ toString site_id ++ " not found")) ∧
    ((∃ r ∈ table, r.id_no = some site_id) →
      ∃ r, get_site_detail site_id table = DetailResult.found r ∧ r.id_no = some site_id) := by
  refine ⟨?_, ?_, ?_⟩
  · intro r hr
    unfold get_site_detail at hr
    cases hfind : table.find? (fun r => r.id_no == some site_id) with
    | none => rw [hfind] at hr; cases hr
    | some r0 =>
      rw [hfind] at hr
      cases hr
      have hb : (r.id_no == some site_id) = true := by
        simpa using List.find?_some hfind
      exact ⟨eq_of_beq hb, List.mem_of_find?_eq_some hfind⟩
  · intro hnone
    unfold get_site_detail
    have hfind : table.find? (fun r => r.id_no == some site_id) = none := by
      rw [List.find?_eq_none]
      intro r hr hbeq
      exact hnone r hr (eq_of_beq hbeq)
    rw [hfind]
  · rintro ⟨r, hr, hid⟩
    unfold get_site_detail
    cases hfind : table.find? (fun r => r.id_no == some site_id) with
    | none =>
      rw [List.find?_eq_none] at hfind
      exact absurd (beq_iff_eq.mpr hid) (hfind r hr)
    | some r0 =>
      have hb : (r0.id_no == some site_id) = true := by
        simpa using List.find?_some hfind
      exact ⟨r0, rfl, eq_of_beq hb⟩

/-- A concrete table for the detail-lookup witness. -/
def detailSampleRow : Row := { id_no := some 7, name_en := some "X", states_name_en := some "Y" }

theorem c7_detail_lookup_witness :
    get_site_detail 8 [detailSampleRow] =
      DetailResult.httpError 404 ("Site with ID " ++ toString (8 : Int) ++ " not found") :=
  (c7_detail_lookup 8 [detailSampleRow]).2.1 (by decide)

/-! ### Claim C6 — criteria token handling -/

theorem tokenColL_c_iff (ds : List Char) (k : Nat) :
    tokenColL ('c' :: ds) = some k ↔
      isDigitsL ds = true ∧ digitsToNatL ds = k ∧ 1 ≤ k ∧ k ≤ 6 := by
  show (if isDigitsL ds then
          if 1 ≤ digitsToNatL ds ∧ digitsToNatL ds ≤ 6 then some (digitsToNatL ds) else none
        else none) = some k ↔ _
  constructor
  · intro h
    split_ifs at h with hd hr
    · injection h with h2
      exact ⟨hd, h2, h2 ▸ hr.1, h2 ▸ hr.2⟩
  · rintro ⟨hd, hk, h1, h6⟩
    subst hk
    simp [hd, h1, h6]

theorem tokenColL_n_iff (ds : List Char) (k : Nat) :
    tokenColL ('n' :: ds) = some k ↔
      isDigitsL ds = true ∧ digitsToNatL ds = k ∧ 7 ≤ k ∧ k ≤ 10 := by
  show (if isDigitsL ds then
          if 7 ≤ digitsToNatL ds ∧ digitsToNatL ds ≤ 10 then some (digitsToNatL ds) else none
        else none) = some k ↔ _
  constructor
  · intro h
    split_ifs at h with hd hr
    · injection h with h2
      exact ⟨hd, h2, h2 ▸ hr.1, h2 ▸ hr.2⟩
  · rintro ⟨hd, hk, h1, h6⟩
    subst hk
    simp [hd, h1, h6]

theorem tokenColL_other (c : Char) (ds : List Char) (hc : c ≠ 'c') (hn : c ≠ 'n') :
    tokenColL (c :: ds) = none := by
  simp [tokenColL, hc, hn]

/-- The criteria clause factors out of the WHERE conjunction: filtering with
`criteria = cs` is filtering without it AND-ed with the `= 1` condition on
every parsed flag column. -/
theorem rowMatches_criteria_decompose (p : FilterParams) (cs : String) (r : Row) :
    rowMatches { p with criteria := some cs } r =
      (rowMatches { p with criteria := none } r &&
        (critColsOpt (some cs)).all (fun k => flagCol k r == some 1)) := by
  simp only [rowMatches]
  simp [critColsOpt, Bool.and_assoc]

/-- Claim C6 as amended: each comma-separated `criteria` token whose stripped,
lower-cased form is `c` followed by a decimal digit string of value 1..6, or
`n` followed by one of value 7..10, adds an exact-match `= 1` condition on the
corresponding flag column (so leading zeros are accepted: `c01` acts as `c1`);
every other token is silently ignored; and a criteria value all of whose tokens
are ignored yields the same result set as omitting `criteria` entirely. -/
theorem c6_criteria_tokens (cs : String) (p : FilterParams) (table : List Row) :
    (∀ ds k, tokenColL ('c' :: ds) = some k ↔
      isDigitsL ds = true ∧ digitsToNatL ds = k ∧ 1 ≤ k ∧ k ≤ 6) ∧
    (∀ ds k, tokenColL ('n' :: ds) = some k ↔
      isDigitsL ds = true ∧ digitsToNatL ds = k ∧ 7 ≤ k ∧ k ≤ 10) ∧
    (∀ c ds, c ≠ 'c' → c ≠ 'n' → tokenColL (c :: ds) = none) ∧
    (∀ r, rowMatches { p with criteria := some cs } r =
      (rowMatches { p with criteria := none } r &&
        (critColsOpt (some cs)).all (fun k => flagCol k r == some 1))) ∧
    (critColsOpt (some cs) = [] →
      filter_sites { p with criteria := some cs } table =
        filter_sites { p with criteria := none } table) ∧
    (∀ r ∈ filter_sites { p with criteria := some cs } table,
      ∀ k ∈ critColsOpt (some cs), flagCol k r = some 1) := by
  refine ⟨tokenColL_c_iff, tokenColL_n_iff, tokenColL_other, ?_, ?_, ?_⟩
  · intro r
    exact rowMatches_criteria_decompose p cs r
  · intro hnil
    unfold filter_sites
    have hfun : rowMatches { p with criteria := some cs } =
        rowMatches { p with criteria := none } := by
      funext r
      rw [rowMatches_criteria_decompose, hnil]
      simp
    rw [hfun]
  · intro r hr k hk
    have hm := (mem_filter_sites hr).2
    rw [rowMatches_criteria_decompose, Bool.and_eq_true] at hm
    exact eq_of_beq (List.all_eq_true.mp hm.2 k hk)

/-- The valid criterion codes as enumerated by the claim
(`c1..c6` or `n7..n10`, case-insensitive, surrounding whitespace ignored). -/
def specValidCriterionCodes : List String :=
  ["c1", "c2", "c3", "c4", "c5", "c6", "n7", "n8", "n9", "n10"]

/-- A row whose `c1` flag is 0. -/
def rowC1Zero : Row := { name_en := some "A", states_name_en := some "B", c1 := some 0 }

/-- Claim C6, counterexample: the token `c01` (already stripped and lower-cased,
and not one of the ten codes the claim calls valid) is not ignored — it adds the
condition `c1 = 1` — so `criteria=c01` filters out a row with `c1 = 0` that the
criteria-free query returns, refuting "every malformed or out-of-range token is
silently ignored". -/
theorem c6_counterexample :
    critCols "c01" = [1] ∧
    ¬ ("c01" ∈ specValidCriterionCodes) ∧
    filter_sites { criteria := some "c01" } [rowC1Zero] = [] ∧
    filter_sites {} [rowC1Zero] = [rowC1Zero] := by
  refine ⟨by decide, by decide, by decide, by decide⟩

/-- A row used by the C6 witness. -/
def rowC6W : Row := { name_en := some "A", states_name_en := some "B", c2 := some 1 }

theorem c6_criteria_tokens_witness :
    filter_sites { ({} : FilterParams) with criteria := some "zz9" } [rowC6W] =
      filter_sites { ({} : FilterParams) with criteria := none } [rowC6W] :=
  (c6_criteria_tokens "zz9" {} [rowC6W]).2.2.2.2.1 (by decide)

/-! ### Claim C1 — the filter endpoint is a sound conjunction of its clauses -/

/-- Claim C1: every record returned by `/sites/filter` belongs to the unfiltered
listing (subset), and satisfies every supplied predicate: case-insensitive
substring match for `country`/`region`/`category`, exact flag match for
`danger`/`transboundary`, inclusive year bounds, the OR-combined multi-field
`search`, and the `= 1` condition for every parsed criteria column.  A predicate
is enforced exactly when the source adds its clause (Python truthiness), and
with every parameter absent the endpoint coincides with the unfiltered
`/sites/all` listing — an absent parameter adds no clause at all. -/
theorem c1_filter_conjunction (p : FilterParams) (table : List Row) :
    (∀ r ∈ filter_sites p table,
      r ∈ table ∧
      (∀ c, p.country = some c → c ≠ "" →
        optLike r.states_name_en (likePat c) = true) ∧
      (∀ c, p.region = some c → c ≠ "" →
        optLike r.region_en (likePat c) = true) ∧
      (∀ c, p.category = some c → c ≠ "" →
        optLike r.category_short (likePat c) = true) ∧
      (∀ b, p.danger = some b → r.danger = some (boolToInt b)) ∧
      (∀ b, p.transboundary = some b → r.transboundary = some (boolToInt b)) ∧
      (∀ y, p.year_from = some y → y ≠ 0 →
        ∃ d, r.date_inscribed = some d ∧ y ≤ d) ∧
      (∀ y, p.year_to = some y → y ≠ 0 →
        ∃ d, r.date_inscribed = some d ∧ d ≤ y) ∧
      (∀ s, p.search = some s → s ≠ "" →
        (optLike r.name_en (likePat s) = true ∨ optLike r.name_fr (likePat s) = true ∨
         optLike r.short_description_en (likePat s) = true ∨
         optLike r.short_description_fr (likePat s) = true)) ∧
      (∀ cs, p.criteria = some cs → ∀ k ∈ critColsOpt (some cs), flagCol k r = some 1)) ∧
    (∀ pg pp, filter_sites { page := pg, per_page := pp } table = get_all_sites pg pp table) := by
  constructor
  · intro r hr
    obtain ⟨hmem, hmatch⟩ := mem_filter_sites hr
    simp only [rowMatches, Bool.and_eq_true] at hmatch
    obtain ⟨⟨⟨⟨⟨⟨⟨⟨h1, h2⟩, h3⟩, h4⟩, h5⟩, h6⟩, h7⟩, h8⟩, h9⟩ := hmatch
    refine ⟨hmem, ?_, ?_, ?_, ?_, ?_, ?_, ?_, ?_, ?_⟩
    · intro c hc hcne
      rw [hc] at h1
      simpa using guardB_elim h1 (strTruthy_of_ne hcne)
    · intro c hc hcne
      rw [hc] at h2
      simpa using guardB_elim h2 (strTruthy_of_ne hcne)
    · intro c hc hcne
      rw [hc] at h3
      simpa using guardB_elim h3 (strTruthy_of_ne hcne)
    · intro b hb
      rw [hb] at h4
      exact eq_of_beq (guardB_elim h4 rfl)
    · intro b hb
      rw [hb] at h5
      exact eq_of_beq (guardB_elim h5 rfl)
    · intro y hy hy0
      rw [hy] at h6
      have hge : geOpt r.date_inscribed y = true := by
        have ht : intTruthy (some y) = true := by simpa [intTruthy] using hy0
        simpa using guardB_elim h6 ht
      cases hd : r.date_inscribed with
      | none => rw [hd] at hge; cases hge
      | some d =>
        rw [hd] at hge
        exact ⟨d, rfl, of_decide_eq_true hge⟩
    · intro y hy hy0
      rw [hy] at h7
      have hle : leOpt r.date_inscribed y = true := by
        have ht : intTruthy (some y) = true := by simpa [intTruthy] using hy0
        simpa using guardB_elim h7 ht
      cases hd : r.date_inscribed with
      | none => rw [hd] at hle; cases hle
      | some d =>
        rw [hd] at hle
        exact ⟨d, rfl, of_decide_eq_true hle⟩
    · intro s hs hsne
      rw [hs] at h8
      have hsearch : searchClause r (likePat s) = true := by
        simpa using guardB_elim h8 (strTruthy_of_ne hsne)
      simpa [searchClause, Bool.or_eq_true, or_assoc] using hsearch
    · intro cs hcs k hk
      rw [hcs] at h9
      exact eq_of_beq (List.all_eq_true.mp h9 k hk)
  · intro pg pp
    unfold filter_sites get_all_sites
    rw [List.filter_eq_self.mpr]
    intro a _
    rfl

/-- A row and parameter set for the C1 witness. -/
def rowC1W : Row := { name_en := some "Island of Goree", states_name_en := some "Senegal" }

theorem c1_filter_conjunction_witness :
    optLike rowC1W.states_name_en (likePat "sene") = true :=
  (((c1_filter_conjunction { country := some "sene" } [rowC1W]).1 rowC1W
    (by decide)).2.1) "sene" rfl (by decide)

/-! ### Claim C2 — query structure is independent of client string content -/

/-- The case-folded code points of a string: two strings with the same
`caseKey` differ only in ASCII letter case. -/
def caseKey (s : String) : List Nat := s.data.map (fun c => lowerNat c.toNat)

theorem lowerNat_low_iff (n m : Nat) (hm : m < 97) (hm2 : ¬ (65 ≤ m ∧ m ≤ 90)) :
    lowerNat n = m ↔ n = m := by
  unfold lowerNat
  split_ifs with h <;> omega

/-- Comparison against a non-letter character is determined by the case-folded
code point. -/
theorem beq_char_congr {a b : Char} (t : Char) (ht : t.toNat < 97)
    (ht2 : ¬ (65 ≤ t.toNat ∧ t.toNat ≤ 90))
    (h : lowerNat a.toNat = lowerNat b.toNat) : (a == t) = (b == t) := by
  have key : a.toNat = t.toNat ↔ b.toNat = t.toNat := by
    rw [← lowerNat_low_iff a.toNat t.toNat ht ht2, ← lowerNat_low_iff b.toNat t.toNat ht ht2, h]
  by_cases ha : a = t
  · have hb : b = t := charToNat_inj (key.mp (ha ▸ rfl))
    rw [ha, hb]
  · have hb : b ≠ t := fun hb => ha (charToNat_inj (key.mpr (hb ▸ rfl)))
    rw [beq_eq_false_iff_ne.mpr ha, beq_eq_false_iff_ne.mpr hb]

/-- `LIKE` matching only depends on the case-folded code points of pattern and
text: SQLite folds ASCII letters on both sides before comparing, and the
wildcard tests compare against the non-letters `%` and `_`. -/
theorem likeAux_caseEq (fuel : Nat) :
    ∀ p1 p2 s1 s2 : List Char,
      p1.map (fun c => lowerNat c.toNat) = p2.map (fun c => lowerNat c.toNat) →
      s1.map (fun c => lowerNat c.toNat) = s2.map (fun c => lowerNat c.toNat) →
      likeAux fuel p1 s1 = likeAux fuel p2 s2 := by
  induction fuel with
  | zero => intro p1 p2 s1 s2 _ _; rfl
  | succ n ih =>
    intro p1 p2 s1 s2 hp hs
    cases p1 with
    | nil =>
      cases p2 with
      | nil =>
        show s1.isEmpty = s2.isEmpty
        cases s1 <;> cases s2 <;> simp_all
      | cons b bs => simp at hp
    | cons a as =>
      cases p2 with
      | nil => simp at hp
      | cons b bs =>
        simp only [List.map_cons, List.cons.injEq] at hp
        obtain ⟨hab, htail⟩ := hp
        have e1 : (a == '%') = (b == '%') := beq_char_congr '%' (by decide) (by decide) hab
        have e2 : (a == '_') = (b == '_') := beq_char_congr '_' (by decide) (by decide) hab
        by_cases hpc : (b == '%') = true
        · have ha : (a == '%') = true := by rw [e1]; exact hpc
          simp only [likeAux, ha, hpc, if_true]
          have hrec := ih as bs s1 s2 htail hs
          rw [hrec]
          cases s1 with
          | nil =>
            cases s2 with
            | nil => rfl
            | cons d ds => simp at hs
          | cons c cs =>
            cases s2 with
            | nil => simp at hs
            | cons d ds =>
              simp only [List.map_cons, List.cons.injEq] at hs
              have hrec2 := ih (a :: as) (b :: bs) cs ds (by simp [hab, htail]) hs.2
              show (likeAux n bs (d :: ds) || likeAux n (a :: as) cs) =
                (likeAux n bs (d :: ds) || likeAux n (b :: bs) ds)
              rw [hrec2]
        · have ha : (a == '%') = false := by
            rw [e1]
            exact Bool.not_eq_true _ ▸ hpc
          by_cases hpu : (b == '_') = true
          · have ha2 : (a == '_') = true := by rw [e2]; exact hpu
            simp only [likeAux, ha, hpc, ha2, hpu, Bool.false_eq_true, if_false, if_true]
            cases s1 with
            | nil =>
              cases s2 with
              | nil => rfl
              | cons d ds => simp at hs
            | cons c cs =>
              cases s2 with
              | nil => simp at hs
              | cons d ds =>
                simp only [List.map_cons, List.cons.injEq] at hs
                exact ih as bs cs ds htail hs.2
          · have ha2 : (a == '_') = false := by
              rw [e2]
              exact Bool.not_eq_true _ ▸ hpu
            simp only [likeAux, ha, hpc, ha2, hpu, Bool.false_eq_true, if_false]
            cases s1 with
            | nil =>
              cases s2 with
              | nil => rfl
              | cons d ds => simp at hs
            | cons c cs =>
              cases s2 with
              | nil => simp at hs
              | cons d ds =>
                simp only [List.map_cons, List.cons.injEq] at hs
                have hheads : charEqCI a c = charEqCI b d := by
                  unfold charEqCI
                  rw [hab, hs.1]
                show (charEqCI a c && likeAux n as cs) = (charEqCI b d && likeAux n bs ds)
                rw [hheads, ih as bs cs ds htail hs.2]

/-- `sqlLike` is case-insensitive in both the pattern and the text. -/
theorem sqlLike_caseEq (p1 p2 s1 s2 : String)
    (hp : caseKey p1 = caseKey p2) (hs : caseKey s1 = caseKey s2) :
    sqlLike p1 s1 = sqlLike p2 s2 := by
  unfold caseKey at hp hs
  have hlp : p1.data.length = p2.data.length := by
    have h2 := congrArg List.length hp
    simpa using h2
  have hls : s1.data.length = s2.data.length := by
    have h2 := congrArg List.length hs
    simpa using h2
  unfold sqlLike
  rw [hlp, hls]
  exact likeAux_caseEq _ _ _ _ _ hp hs

/-- Claim C2 as amended: if two `/sites/filter` inputs agree on which text
parameters are supplied and non-empty (Python truthiness), on the presence of
`danger`/`transboundary`, on the numeric parameters, and on the validated
criteria columns, then the assembled query text is identical — the content of
the supplied strings is bound only as parameters; likewise for `/sites/geo`;
and every substring match is case-insensitive in both operands. -/
theorem c2_structure (p q : FilterParams) (g1 g2 : GeoParams)
    (hc : strTruthy p.country = strTruthy q.country)
    (hr : strTruthy p.region = strTruthy q.region)
    (hcat : strTruthy p.category = strTruthy q.category)
    (hse : strTruthy p.search = strTruthy q.search)
    (hd : p.danger.isSome = q.danger.isSome)
    (ht : p.transboundary.isSome = q.transboundary.isSome)
    (hyf : p.year_from = q.year_from)
    (hyt : p.year_to = q.year_to)
    (hcr : critColsOpt p.criteria = critColsOpt q.criteria)
    (hgc : strTruthy g1.country = strTruthy g2.country)
    (hgr : strTruthy g1.region = strTruthy g2.region)
    (hgcat : strTruthy g1.category = strTruthy g2.category)
    (hgd : g1.danger.isSome = g2.danger.isSome)
    (hgt : g1.transboundary.isSome = g2.transboundary.isSome)
    (hgcr : geoCritTextClause g1.criteria = geoCritTextClause g2.criteria) :
    filterQueryParts p = filterQueryParts q ∧
    geoQueryParts g1 = geoQueryParts g2 ∧
    (∀ pat1 pat2 s1 s2 : String, caseKey pat1 = caseKey pat2 → caseKey s1 = caseKey s2 →
      sqlLike pat1 s1 = sqlLike pat2 s2) := by
  refine ⟨?_, ?_, fun pat1 pat2 s1 s2 hp hs => sqlLike_caseEq pat1 pat2 s1 s2 hp hs⟩
  · simp only [filterQueryParts, hc, hr, hcat, hse, hd, ht, hyf, hyt, hcr]
  · simp only [geoQueryParts, hgc, hgr, hgcat, hgd, hgt, hgcr]

/-- Request with `country` supplied as the empty string. -/
def c2ParamsEmpty : FilterParams := { country := some "" }

/-- Request with `country` supplied as a non-empty string. -/
def c2ParamsNonempty : FilterParams := { country := some "x" }

/-- Claim C2, counterexample: two requests that both supply `country` and agree
on every other parameter — they differ only in the content of the supplied
string (`""` versus `"x"`) — produce different query texts, because Python
truthiness drops the clause for the empty string.  This refutes the claim for
"same parameters present"; the amendment requires equal truthiness instead. -/
theorem c2_counterexample :
    c2ParamsEmpty.country.isSome = true ∧
    c2ParamsNonempty.country.isSome = true ∧
    c2ParamsEmpty.region = c2ParamsNonempty.region ∧
    c2ParamsEmpty.category = c2ParamsNonempty.category ∧
    c2ParamsEmpty.danger = c2ParamsNonempty.danger ∧
    c2ParamsEmpty.year_from = c2ParamsNonempty.year_from ∧
    c2ParamsEmpty.year_to = c2ParamsNonempty.year_to ∧
    c2ParamsEmpty.search = c2ParamsNonempty.search ∧
    c2ParamsEmpty.criteria = c2ParamsNonempty.criteria ∧
    c2ParamsEmpty.transboundary = c2ParamsNonempty.transboundary ∧
    c2ParamsEmpty.page = c2ParamsNonempty.page ∧
    c2ParamsEmpty.per_page = c2ParamsNonempty.per_page ∧
    filterQueryParts c2ParamsEmpty ≠ filterQueryParts c2ParamsNonempty := by
  refine ⟨rfl, rfl, rfl, rfl, rfl, rfl, rfl, rfl, rfl, rfl, rfl, rfl, by decide⟩

def c2pW1 : FilterParams := { country := some "FRANCE", search := some "Af" }

def c2pW2 : FilterParams := { country := some "italy", search := some "Zu" }

def c2gW1 : GeoParams := { category := some "Cultural", criteria := some "c3" }

def c2gW2 : GeoParams := { category := some "Natural", criteria := some "C3" }

theorem c2_structure_witness :
    filterQueryParts c2pW1 = filterQueryParts c2pW2 ∧
    geoQueryParts c2gW1 = geoQueryParts c2gW2 ∧
    sqlLike "%AbC%" "xxabcyy" = sqlLike "%aBc%" "XXABCYY" := by
  have h := c2_structure c2pW1 c2pW2 c2gW1 c2gW2 (by decide) (by decide) (by decide)
    (by decide) (by decide) (by decide) (by decide) (by decide) (by decide) (by decide)
    (by decide) (by decide) (by decide) (by decide) (by decide)
  exact ⟨h.1, h.2.1, h.2.2 "%AbC%" "%aBc%" "xxabcyy" "XXABCYY" (by decide) (by decide)⟩

/-! ### Claim C9 — statistics consistency -/

theorem sumCategoryCounts_eq (table : List Row) :
    sumCategoryCounts table = (catVals table).length := by
  unfold sumCategoryCounts sites_by_category
  rw [List.map_map]
  exact List.sum_map_count_dedup_eq_length _

theorem catVals_length_full (table : List Row)
    (h : ∀ r ∈ table, r.category_short ≠ none ∧ r.category_short ≠ some "") :
    (catVals table).length = table.length := by
  induction table with
  | nil => rfl
  | cons r t ih =>
    have hr := h r (List.mem_cons_self r t)
    obtain ⟨cat, hsome⟩ : ∃ cat, r.category_short = some cat := by
      cases hcs : r.category_short with
      | none => exact absurd hcs hr.1
      | some cat => exact ⟨cat, rfl⟩
    have hne : cat ≠ "" := by
      intro he
      exact hr.2 (by rw [hsome, he])
    have hkeep : (!cat.data.isEmpty) = true := strTruthy_of_ne hne
    unfold catVals
    rw [List.filterMap_cons_some hsome]
    have ih2 := ih (fun r hr => h r (List.mem_cons_of_mem _ hr))
    unfold catVals at ih2
    simp [List.filter_cons, hkeep, ih2]

/-- Claim C9 as amended: over any single table snapshot the statistics are
internally consistent — the category counts sum to at most the total, strict
inequality occurs only when some record has a NULL **or empty-string**
`category_short` (the dict comprehension drops falsy keys, not just NULL),
`sites_in_danger` counts exactly the rows with `danger = 1` in the unfiltered
table, and every listed category group has a positive count. -/
theorem c9_stats_consistency (table : List Row) :
    sumCategoryCounts table ≤ total_sites table ∧
    (sumCategoryCounts table < total_sites table →
      table.any (fun r => r.category_short == none || r.category_short == some "") = true) ∧
    sites_in_danger table = table.countP (fun r => r.danger == some 1) ∧
    (∀ kv ∈ sites_by_category table, 1 ≤ kv.2) := by
  refine ⟨?_, ?_, ?_, ?_⟩
  · rw [sumCategoryCounts_eq]
    exact le_trans (List.length_filter_le _ _) (List.length_filterMap_le _ _)
  · intro hlt
    by_contra hany
    have hany2 : table.any (fun r => r.category_short == none || r.category_short == some "")
        = false := by
      cases hv : table.any (fun r => r.category_short == none || r.category_short == some "")
      · rfl
      · exact absurd hv hany
    rw [List.any_eq_false] at hany2
    have hfull : (catVals table).length = table.length := by
      apply catVals_length_full
      intro r hr
      have h2 : (r.category_short == none || r.category_short == some "") = false := by
        have h3 := hany2 r hr
        cases hv : (r.category_short == none || r.category_short == some "")
        · rfl
        · exact absurd hv h3
      have h4 : (r.category_short == none) = false ∧ (r.category_short == some "") = false := by
        constructor <;> simp_all
      exact ⟨beq_eq_false_iff_ne.mp h4.1, beq_eq_false_iff_ne.mp h4.2⟩
    rw [sumCategoryCounts_eq, hfull] at hlt
    exact absurd hlt (lt_irrefl _)
  · exact (List.countP_eq_length_filter _ _).symm
  · intro kv hkv
    unfold sites_by_category at hkv
    rw [List.mem_map] at hkv
    obtain ⟨k, hk, hkv2⟩ := hkv
    have hmem : k ∈ catVals table := List.mem_dedup.mp hk
    have hpos := List.count_pos_iff.mpr hmem
    rw [← hkv2]
    exact hpos

/-- A row whose `category_short` is the empty string (non-NULL). -/
def rowEmptyCat : Row := { name_en := some "A", states_name_en := some "B", category_short := some "" }

/-- Claim C9, counterexample: a table whose single record has a non-NULL (empty
string) `category_short` makes the category-count sum strictly smaller than
`total_sites` although no record has a NULL category — refuting "strictly less
only when some records have a null category_short". -/
theorem c9_counterexample :
    sumCategoryCounts [rowEmptyCat] < total_sites [rowEmptyCat] ∧
    [rowEmptyCat].all (fun r => r.category_short.isSome) = true := by
  refine ⟨by decide, by decide⟩

theorem c9_stats_consistency_witness :
    [rowEmptyCat].any (fun r => r.category_short == none || r.category_short == some "")
      = true :=
  (c9_stats_consistency [rowEmptyCat]).2.1 (by decide)

/-! ### Claim C8 — decade statistics -/

/-- All inscription years in the table are non-negative (years of inscription
are calendar years, so this holds of any real snapshot); on this domain SQLite's
truncating integer division agrees with the claim's `floor`. -/
def dateNonneg (r : Row) : Bool :=
  match r.date_inscribed with
  | none => true
  | some y => decide (0 ≤ y)

theorem decadesList_count (table : List Row) (dv : Int) :
    (decadesList table).count dv =
      (table.filter (fun r => match r.date_inscribed with
        | none => false
        | some y => decadeOfYear y == dv)).length := by
  induction table with
  | nil => rfl
  | cons r t ih =>
    cases hd : r.date_inscribed with
    | none =>
      have h1 : (decadesList (r :: t)) = decadesList t := by
        unfold decadesList
        rw [List.filterMap_cons_none hd]
      have h2 : (match r.date_inscribed with
          | none => false
          | some y => decadeOfYear y == dv) = false := by
        simp [hd]
      rw [h1, List.filter_cons_of_neg (by simp [h2]), ih]
    | some y =>
      have h1 : (decadesList (r :: t)) = decadeOfYear y :: decadesList t := by
        unfold decadesList
        rw [List.filterMap_cons_some hd]
        rfl
      have h2 : (match r.date_inscribed with
          | none => false
          | some y => decadeOfYear y == dv) = (decadeOfYear y == dv) := by
        simp [hd]
      rw [h1, List.count_cons, List.filter_cons, h2, ih]
      by_cases hv : decadeOfYear y = dv
      · simp [hv]
      · have hv2 : (decadeOfYear y == dv) = false := beq_eq_false_iff_ne.mpr hv
        have hv3 : (dv == decadeOfYear y) = false := beq_eq_false_iff_ne.mpr (Ne.symm hv)
        simp [hv2, hv3]

/-- Claim C8: for a table whose inscription years are non-negative, the
`sites_by_decade` aggregate is keyed on `floor(date_inscribed / 10) * 10`
rendered with an `s` suffix, lists the decades in ascending order without
duplicates, counts exactly the records of each decade, excludes NULL
`date_inscribed` records (only `some` dates contribute), every dated record's
decade appears, and every listed decade comes from some dated record. -/
theorem c8_decade_stats (table : List Row) (hy : table.all dateNonneg = true) :
    List.Sorted (fun a b => a ≤ b) (decadeKeys table) ∧
    (decadeKeys table).Nodup ∧
    sites_by_decade table = (decadeKeys table).map (fun dv => (toString dv ++ "s",
      (table.filter (fun r => match r.date_inscribed with
        | none => false
        | some y => Int.fdiv y 10 * 10 == dv)).length)) ∧
    (∀ r ∈ table, ∀ y, r.date_inscribed = some y → Int.fdiv y 10 * 10 ∈ decadeKeys table) ∧
    (∀ dv ∈ decadeKeys table,
      ∃ r ∈ table, ∃ y, r.date_inscribed = some y ∧ Int.fdiv y 10 * 10 = dv) := by
  have hnn : ∀ r ∈ table, ∀ y, r.date_inscribed = some y → 0 ≤ y := by
    intro r hr y hyd
    have h2 := List.all_eq_true.mp hy r hr
    unfold dateNonneg at h2
    rw [hyd] at h2
    exact of_decide_eq_true h2
  have hfd : ∀ r ∈ table, ∀ y, r.date_inscribed = some y →
      Int.fdiv y 10 = Int.tdiv y 10 :=
    fun r hr y hyd => Int.fdiv_eq_tdiv (hnn r hr y hyd) (by decide)
  refine ⟨List.sorted_insertionSort _ _, ?_, ?_, ?_, ?_⟩
  · exact ((List.perm_insertionSort _ _).nodup_iff).mpr (List.nodup_dedup _)
  · unfold sites_by_decade
    apply List.map_congr_left
    intro dv _
    have hfilter : table.filter (fun r => match r.date_inscribed with
          | none => false
          | some y => decadeOfYear y == dv) =
        table.filter (fun r => match r.date_inscribed with
          | none => false
          | some y => Int.fdiv y 10 * 10 == dv) := by
      apply List.filter_congr
      intro r hr
      cases hdr : r.date_inscribed with
      | none => simp [hdr]
      | some y =>
        simp only [hdr]
        show (decadeOfYear y == dv) = (Int.fdiv y 10 * 10 == dv)
        rw [decadeOfYear, hfd r hr y hdr]
    rw [decadesList_count, hfilter]
  · intro r hr y hyd
    have h1 : decadeOfYear y ∈ decadesList table := by
      unfold decadesList
      exact List.mem_map_of_mem _ (List.mem_filterMap.mpr ⟨r, hr, hyd⟩)
    have h2 : decadeOfYear y ∈ decadeKeys table :=
      ((List.perm_insertionSort _ _).mem_iff).mpr (List.mem_dedup.mpr h1)
    rw [show Int.fdiv y 10 = Int.tdiv y 10 from hfd r hr y hyd]
    exact h2
  · intro dv hdv
    have h1 : dv ∈ decadesList table :=
      List.mem_dedup.mp (((List.perm_insertionSort _ _).mem_iff).mp hdv)
    unfold decadesList at h1
    rw [List.mem_map] at h1
    obtain ⟨y, hy2, hdy⟩ := h1
    rw [List.mem_filterMap] at hy2
    obtain ⟨r, hr, hry⟩ := hy2
    refine ⟨r, hr, y, hry, ?_⟩
    rw [show Int.fdiv y 10 = Int.tdiv y 10 from hfd r hr y hry]
    exact hdy

/-- A row inscribed in 1987 for the C8 witness. -/
def rowY8 : Row := { name_en := some "A", states_name_en := some "B", date_inscribed := some 1987 }

theorem c8_decade_stats_witness :
    List.Sorted (fun a b => a ≤ b) (decadeKeys [rowY8]) ∧
    Int.fdiv 1987 10 * 10 ∈ decadeKeys [rowY8] := by
  have h := c8_decade_stats [rowY8] (by decide)
  exact ⟨h.1, h.2.2.2.1 rowY8 (List.mem_cons_self _ _) 1987 rfl⟩

end Unesco
